import Mathlib

/-!
Shallow embedding of the shipment-tracking repository
(`run_worker.py` and `run_api.py`): the shipment store kept in
`shipments.json`, the two activities that mutate it, the
`ShipmentLifecycleWorkflow` decision logic, and the FastAPI endpoints
that query the store and forward resolution signals.
-/

namespace Shipment

/-- A shipment record, with the fields the API's `create_shipment`
endpoint puts into the `shipment_data` dict (run_api.py lines 100-112).
`cargo_value` and `issue_details` may be JSON `null`, hence `Option`. -/
structure ShipmentRecord where
  shipment_id : String
  project_name : String
  supplier_name : String
  origin : String
  destination : String
  cargo_value : Option Int
  priority : String
  container_type : String
  current_location : String
  status : String
  issue_details : Option String
  deriving Repr, DecidableEq

/-- A JSON scalar value as stored in `shipments.json`. -/
inductive PyValue where
  | str (s : String)
  | int (n : Int)
  | null
  deriving Repr, DecidableEq

/-- The field names and values of a record as serialized into
`shipments.json` (the Python record is a dict with these keys). -/
def ShipmentRecord.fields (r : ShipmentRecord) : List (String × PyValue) :=
  [ ("shipment_id", PyValue.str r.shipment_id),
    ("project_name", PyValue.str r.project_name),
    ("supplier_name", PyValue.str r.supplier_name),
    ("origin", PyValue.str r.origin),
    ("destination", PyValue.str r.destination),
    ("cargo_value", match r.cargo_value with
      | some n => PyValue.int n
      | none => PyValue.null),
    ("priority", PyValue.str r.priority),
    ("container_type", PyValue.str r.container_type),
    ("current_location", PyValue.str r.current_location),
    ("status", PyValue.str r.status),
    ("issue_details", match r.issue_details with
      | some s => PyValue.str s
      | none => PyValue.null) ]

/-- The contents of `shipments.json`: a JSON object mapping
shipment ids to records, modelled as an association list. -/
abbrev Store := List (String × ShipmentRecord)

/-- Python truthiness of an optional string argument
(`if current_location:` is false for `None` and for `""`). -/
def pyTruthy : Option String → Bool
  | none => false
  | some s => !(s == "")

/-- `shipments[shipment_id] = value` on a Python dict: replace the
entry in place when the key is present, otherwise add it. -/
def dictInsert (k : String) (v : ShipmentRecord) (s : Store) : Store :=
  if (List.lookup k s).isSome then
    s.map (fun p => if p.1 = k then (k, v) else p)
  else
    s ++ [(k, v)]

/-- The in-place mutation that `update_shipment_status` performs on the
record at `shipment_id` (run_worker.py lines 24-28): always overwrite
`status`; overwrite `current_location` only when the argument is truthy;
overwrite `issue_details` only when the argument `is not None`. -/
def applyStatusUpdate (status : String) (current_location issue_details : Option String)
    (r : ShipmentRecord) : ShipmentRecord :=
  let r1 := { r with status := status }
  let r2 := if pyTruthy current_location then
              { r1 with current_location := current_location.getD "" }
            else r1
  if issue_details.isSome then { r2 with issue_details := issue_details } else r2

/-- The dict returned by `update_shipment_status`
(`return \x7b"shipment_id": shipment_id, "status": status\x7d`). -/
structure UpdateResult where
  shipment_id : String
  status : String
  deriving Repr, DecidableEq

/-- Activity `update_shipment_status` (run_worker.py lines 13-34): read
the store, mutate the record if the id is present (silently doing
nothing otherwise), write the store back, and return the result dict.
Returns the new store together with the activity's return value. -/
def update_shipment_status (shipment_id status : String)
    (current_location issue_details : Option String) (s : Store) :
    Store × UpdateResult :=
  let s' := s.map (fun p =>
    if p.1 = shipment_id then
      (p.1, applyStatusUpdate status current_location issue_details p.2)
    else p)
  (s', { shipment_id := shipment_id, status := status })

/-- Activity `create_shipment_record` (run_worker.py lines 37-53):
read the store, set `shipments[data["shipment_id"]] = data`, write it
back, and return the data. -/
def create_shipment_record (shipment_data : ShipmentRecord) (s : Store) :
    Store × ShipmentRecord :=
  (dictInsert shipment_data.shipment_id shipment_data s, shipment_data)

/-- One activity invocation issued by the workflow, with its arguments. -/
inductive ActivityCall where
  | createRecord (shipment_data : ShipmentRecord)
  | updateStatus (shipment_id status : String)
      (current_location issue_details : Option String)
  deriving Repr, DecidableEq

/-- One step of the workflow body: an `asyncio.sleep` (a durable timer
inside a Temporal workflow) or an `execute_activity` call. -/
inductive WorkflowEvent where
  | sleep (seconds : Nat)
  | activity (call : ActivityCall)
  deriving Repr, DecidableEq

/-- The dict returned by `ShipmentLifecycleWorkflow.run`
(run_worker.py line 208). -/
structure WorkflowResult where
  shipment_id : String
  status : String
  resolution : Option String
  deriving Repr, DecidableEq

namespace ShipmentLifecycleWorkflow

/-- The resolution if/elif chain of `run` (run_worker.py lines
123-191): the sleep and the "Cleared Customs" upsert selected by the
resolution choice, with the final `else` falling back to a 6-second
sleep and a location without a parenthesized service label. -/
def resolutionEvents (shipment_id destination resolution_choice : String) :
    List WorkflowEvent :=
  (if resolution_choice = "expedite" then
        [ WorkflowEvent.sleep 2,
          WorkflowEvent.activity (ActivityCall.updateStatus shipment_id "Cleared Customs"
            (some ("Customs cleared (Express Service) - " ++ destination))
            none) ]
      else if resolution_choice = "bribe_official" then
        [ WorkflowEvent.sleep 3,
          WorkflowEvent.activity (ActivityCall.updateStatus shipment_id "Cleared Customs"
            (some ("Customs cleared (Expedited Processing) - " ++ destination))
            none) ]
      else if resolution_choice = "reroute" then
        [ WorkflowEvent.sleep 4,
          WorkflowEvent.activity (ActivityCall.updateStatus shipment_id "Cleared Customs"
            (some ("Rerouted and cleared (Alternative Port) - " ++ destination))
            none) ]
      else if resolution_choice = "wait" then
        [ WorkflowEvent.sleep 6,
          WorkflowEvent.activity (ActivityCall.updateStatus shipment_id "Cleared Customs"
            (some ("Customs cleared (Standard Processing) - " ++ destination))
            none) ]
      else
        [ WorkflowEvent.sleep 6,
          WorkflowEvent.activity (ActivityCall.updateStatus shipment_id "Cleared Customs"
            (some ("Customs cleared - " ++ destination))
            none) ])

/-- The sequence of sleeps and activity invocations issued by
`ShipmentLifecycleWorkflow.run` (run_worker.py lines 66-205), in program
order, given the payload and the resolution choice delivered at the
`wait_condition` suspension point (the workflow's only external input):
create the record, travel to "In Transit", arrive "At Customs", record
"Issue Detected", run the resolution branch, then deliver. -/
def runTrace (shipment_data : ShipmentRecord) (resolution_choice : String) :
    List WorkflowEvent :=
  let shipment_id := shipment_data.shipment_id
  [ WorkflowEvent.activity (ActivityCall.createRecord shipment_data),
    WorkflowEvent.sleep 3,
    WorkflowEvent.activity (ActivityCall.updateStatus shipment_id "In Transit"
      (some ("En route to " ++ shipment_data.destination)) none),
    WorkflowEvent.sleep 3,
    WorkflowEvent.activity (ActivityCall.updateStatus shipment_id "At Customs"
      (some ("Customs checkpoint - " ++ shipment_data.destination)) none),
    WorkflowEvent.sleep 2,
    WorkflowEvent.activity (ActivityCall.updateStatus shipment_id "Issue Detected"
      (some ("Customs checkpoint - " ++ shipment_data.destination))
      (some "Documentation discrepancy found - requires manual review")) ]
  ++ resolutionEvents shipment_id shipment_data.destination resolution_choice
  ++ [ WorkflowEvent.sleep 3,
       WorkflowEvent.activity (ActivityCall.updateStatus shipment_id "Delivered"
         (some ("Delivered to " ++ shipment_data.destination)) none) ]

/-- The value returned at the end of `run` (run_worker.py line 208):
`self.resolution_choice` at return time is the delivered choice. -/
def runResult (shipment_data : ShipmentRecord) (resolution_choice : String) :
    WorkflowResult :=
  { shipment_id := shipment_data.shipment_id,
    status := "Delivered",
    resolution := some resolution_choice }

/-- The mutable per-instance state of the workflow object:
`self.resolution_choice`, initialized to `None` in `__init__`. -/
structure WorkflowState where
  resolution_choice : Option String
  deriving Repr, DecidableEq

/-- The signal handler `handle_resolution` (run_worker.py lines 210-214):
it unconditionally assigns `self.resolution_choice = choice`. -/
def handle_resolution (st : WorkflowState) (choice : String) : WorkflowState :=
  { st with resolution_choice := some choice }

/-- The log level used by the resolution branch for a given choice: the
four recognized branches log via `workflow.logger.info`; the fallback
branch logs `workflow.logger.warning` (run_worker.py line 180). No
branch raises an error. -/
def resolutionLogLevel (resolution_choice : String) : String :=
  if resolution_choice = "expedite" ∨ resolution_choice = "bribe_official" ∨
      resolution_choice = "reroute" ∨ resolution_choice = "wait" then "info"
  else "warning"

end ShipmentLifecycleWorkflow

/-- Effect of one activity invocation on the shipment store. -/
def applyActivity (s : Store) : ActivityCall → Store
  | ActivityCall.createRecord d => (create_shipment_record d s).1
  | ActivityCall.updateStatus shipment_id status loc details =>
      (update_shipment_status shipment_id status loc details s).1

/-- Run a list of workflow events against the store: sleeps do not touch
the store, activities apply their effect in order. -/
def runEvents (events : List WorkflowEvent) (s : Store) : Store :=
  events.foldl (fun s e => match e with
    | WorkflowEvent.sleep _ => s
    | WorkflowEvent.activity c => applyActivity s c) s

/-- The statuses persisted to the store by a trace, in order: the status
field of the created record, and the status argument of each
`update_shipment_status` call. -/
def persistedStatuses (events : List WorkflowEvent) : List String :=
  events.filterMap (fun e => match e with
    | WorkflowEvent.activity (ActivityCall.createRecord d) => some d.status
    | WorkflowEvent.activity (ActivityCall.updateStatus _ status _ _) => some status
    | WorkflowEvent.sleep _ => none)

/-- Outcome of a FastAPI endpoint: a normal JSON response, or an
`HTTPException` with a status code and detail string. -/
inductive ApiResult (α : Type) where
  | ok (value : α)
  | httpError (status_code : Nat) (detail : String)
  deriving Repr, DecidableEq

/-- Endpoint `GET /api/shipments/\x7bshipment_id\x7d` (run_api.py lines
184-199): return the record, or a 404 `HTTPException` naming the
unknown id. -/
def get_shipment (shipment_id : String) (s : Store) : ApiResult ShipmentRecord :=
  match List.lookup shipment_id s with
  | some r => ApiResult.ok r
  | none => ApiResult.httpError 404 ("Shipment " ++ shipment_id ++ " not found")

/-- The `valid_choices` list of `resolve_shipment_issue`
(run_api.py line 154). -/
def valid_choices : List String := ["expedite", "wait", "bribe_official", "reroute"]

/-- The success response of `resolve_shipment_issue`; its `choice` field
is the choice that was forwarded to the workflow as a signal. -/
structure ResolveResponse where
  message : String
  shipment_id : String
  choice : String
  deriving Repr, DecidableEq

/-- Endpoint `POST /api/shipments/\x7bshipment_id\x7d/resolve`
(run_api.py lines 141-181): reject a choice outside `valid_choices` with
a 400 `HTTPException` before any signal is sent; otherwise signal the
workflow with the choice and return a success response. -/
def resolve_shipment_issue (shipment_id choice : String) :
    ApiResult ResolveResponse :=
  if choice ∉ valid_choices then
    ApiResult.httpError 400
      ("Invalid choice. Must be one of: " ++ String.intercalate ", " valid_choices)
  else
    ApiResult.ok { message := "Resolution signal sent to workflow",
                   shipment_id := shipment_id, choice := choice }

/-- The location argument of the first "Cleared Customs" upsert in a
trace, if any. -/
def clearedCustomsLocation (events : List WorkflowEvent) : Option (Option String) :=
  events.findSome? (fun e => match e with
    | WorkflowEvent.activity (ActivityCall.updateStatus _ status loc _) =>
        if status = "Cleared Customs" then some loc else none
    | _ => none)

/-- The field named `fieldName` of the record that
`GET /api/shipments/\x7bshipment_id\x7d` returns for `shipment_id`:
`none` when the endpoint reports an error, `some v` when it returns a
record whose serialized fields map `fieldName` to `v` (with
`v = none` when the record has no such field). -/
def queriedField (shipment_id fieldName : String) (s : Store) :
    Option (Option PyValue) :=
  match get_shipment shipment_id s with
  | ApiResult.ok r => some (List.lookup fieldName r.fields)
  | ApiResult.httpError _ _ => none

/-- The location label the resolution table of section 4.5 of the
specification assigns to each recognized choice. Stated from the
specification's words, to be compared with the labels the code embeds
in the recorded location strings. -/
def specResolutionLabel (choice : String) : Option String :=
  if choice = "expedite" then some "Express Service"
  else if choice = "bribe_official" then some "Expedited Processing"
  else if choice = "reroute" then some "Alternative Port"
  else if choice = "wait" then some "Standard Processing"
  else none

/-- The `shipment_data` dict built by `POST /api/shipments/create`
(run_api.py lines 100-112): `current_location` starts at the origin,
`status` at "Pending", `issue_details` at `None`. -/
def api_shipment_data (shipment_id project_name supplier_name origin destination : String)
    (cargo_value : Option Int) (priority container_type : String) : ShipmentRecord :=
  { shipment_id := shipment_id,
    project_name := project_name,
    supplier_name := supplier_name,
    origin := origin,
    destination := destination,
    cargo_value := cargo_value,
    priority := priority,
    container_type := container_type,
    current_location := origin,
    status := "Pending",
    issue_details := none }

/-- A concrete payload, as the create endpoint would build it, used to
instantiate the universally quantified statements below. -/
def samplePayload : ShipmentRecord :=
  api_shipment_data "SHP-1" "Harbor Expansion" "Acme Supply" "Warehouse Alpha"
    "Rotterdam" (some 120000) "Standard" "40ft Standard"

/-! ## Supporting lemmas about the store operations -/

theorem applyStatusUpdate_idem (status : String) (loc det : Option String)
    (r : ShipmentRecord) :
    applyStatusUpdate status loc det (applyStatusUpdate status loc det r)
      = applyStatusUpdate status loc det r := by
  unfold applyStatusUpdate
  cases det <;> by_cases hl : pyTruthy loc <;> simp [hl]

theorem lookup_update_self (shipment_id status : String) (loc det : Option String)
    (s : Store) :
    List.lookup shipment_id (update_shipment_status shipment_id status loc det s).1
      = (List.lookup shipment_id s).map (applyStatusUpdate status loc det) := by
  induction s with
  | nil => rfl
  | cons p t ih =>
    obtain ⟨k, v⟩ := p
    show List.lookup shipment_id
        ((if k = shipment_id then (k, applyStatusUpdate status loc det v) else (k, v))
          :: (update_shipment_status shipment_id status loc det t).1)
      = (List.lookup shipment_id ((k, v) :: t)).map (applyStatusUpdate status loc det)
    by_cases h : k = shipment_id
    · subst h
      rw [if_pos rfl]
      simp
    · rw [if_neg h]
      have hne : (shipment_id == k) = false := by
        simpa using Ne.symm h
      simp [List.lookup_cons, hne, ih]

theorem lookup_update_other (shipment_id status : String) (loc det : Option String)
    (s : Store) (id' : String) (h : id' ≠ shipment_id) :
    List.lookup id' (update_shipment_status shipment_id status loc det s).1
      = List.lookup id' s := by
  induction s with
  | nil => rfl
  | cons p t ih =>
    obtain ⟨k, v⟩ := p
    show List.lookup id'
        ((if k = shipment_id then (k, applyStatusUpdate status loc det v) else (k, v))
          :: (update_shipment_status shipment_id status loc det t).1)
      = List.lookup id' ((k, v) :: t)
    by_cases hk : k = shipment_id
    · subst hk
      rw [if_pos rfl]
      have hne : (id' == k) = false := by simpa using h
      simp [List.lookup_cons, hne, ih]
    · rw [if_neg hk]
      by_cases he : id' = k
      · subst he
        simp
      · have hne : (id' == k) = false := by simpa using he
        simp [List.lookup_cons, hne, ih]

theorem lookup_map_replace (k : String) (v : ShipmentRecord) (s : Store) :
    List.lookup k (s.map (fun p => if p.1 = k then (k, v) else p))
      = (List.lookup k s).map (fun _ => v) := by
  induction s with
  | nil => rfl
  | cons p t ih =>
    obtain ⟨k', v'⟩ := p
    show List.lookup k
        ((if k' = k then (k, v) else (k', v'))
          :: t.map (fun p => if p.1 = k then (k, v) else p))
      = (List.lookup k ((k', v') :: t)).map (fun _ => v)
    by_cases h : k' = k
    · subst h
      rw [if_pos rfl]
      simp
    · rw [if_neg h]
      have hne : (k == k') = false := by simpa using Ne.symm h
      simp [List.lookup_cons, hne, ih]

theorem map_replace_eq_self_of_lookup_none (k : String) (v : ShipmentRecord)
    (s : Store) (h : List.lookup k s = none) :
    s.map (fun p => if p.1 = k then (k, v) else p) = s := by
  induction s with
  | nil => rfl
  | cons p t ih =>
    obtain ⟨k', v'⟩ := p
    rw [List.lookup_cons] at h
    cases hk : (k == k') with
    | true =>
      rw [hk] at h
      exact absurd h (by simp)
    | false =>
      rw [hk] at h
      have hne : k' ≠ k := by
        intro he
        simp [he] at hk
      show (if k' = k then (k, v) else (k', v'))
          :: t.map (fun p => if p.1 = k then (k, v) else p) = (k', v') :: t
      rw [if_neg hne, ih h]

theorem map_replace_idem (k : String) (v : ShipmentRecord) (s : Store) :
    (s.map (fun p => if p.1 = k then (k, v) else p)).map
        (fun p => if p.1 = k then (k, v) else p)
      = s.map (fun p => if p.1 = k then (k, v) else p) := by
  rw [List.map_map]
  apply List.map_congr_left
  intro p _
  by_cases h : p.1 = k
  · simp [Function.comp, h]
  · simp [Function.comp, h]

theorem update_store_idem (shipment_id status : String) (loc det : Option String)
    (s : Store) :
    (update_shipment_status shipment_id status loc det
        (update_shipment_status shipment_id status loc det s).1).1
      = (update_shipment_status shipment_id status loc det s).1 := by
  show (s.map _).map _ = s.map _
  rw [List.map_map]
  apply List.map_congr_left
  intro p _
  by_cases h : p.1 = shipment_id
  · simp [Function.comp, h, applyStatusUpdate_idem]
  · simp [Function.comp, h]

theorem lookup_dictInsert_self (k : String) (v : ShipmentRecord) (s : Store) :
    List.lookup k (dictInsert k v s) = some v := by
  unfold dictInsert
  by_cases h : (List.lookup k s).isSome
  · obtain ⟨w, hw⟩ := Option.isSome_iff_exists.mp h
    simp [h, lookup_map_replace, hw]
  · have hn : List.lookup k s = none := Option.not_isSome_iff_eq_none.mp h
    simp [h, List.lookup_append, hn]

theorem update_map_eq_self_of_lookup_none (shipment_id status : String)
    (loc det : Option String) (s : Store)
    (h : List.lookup shipment_id s = none) :
    (update_shipment_status shipment_id status loc det s).1 = s := by
  induction s with
  | nil => rfl
  | cons p t ih =>
    obtain ⟨k, v⟩ := p
    rw [List.lookup_cons] at h
    cases hk : (shipment_id == k) with
    | true =>
      rw [hk] at h
      exact absurd h (by simp)
    | false =>
      rw [hk] at h
      have hne : k ≠ shipment_id := by
        intro he
        simp [he] at hk
      show (if k = shipment_id then (k, applyStatusUpdate status loc det v) else (k, v))
          :: (update_shipment_status shipment_id status loc det t).1 = (k, v) :: t
      rw [if_neg hne, ih h]

theorem applyStatusUpdate_frame (status : String) (loc det : Option String)
    (r : ShipmentRecord) :
    (applyStatusUpdate status loc det r).status = status
    ∧ (pyTruthy loc = false →
        (applyStatusUpdate status loc det r).current_location = r.current_location)
    ∧ (det = none →
        (applyStatusUpdate status loc det r).issue_details = r.issue_details)
    ∧ (applyStatusUpdate status loc det r).shipment_id = r.shipment_id
    ∧ (applyStatusUpdate status loc det r).project_name = r.project_name
    ∧ (applyStatusUpdate status loc det r).supplier_name = r.supplier_name
    ∧ (applyStatusUpdate status loc det r).origin = r.origin
    ∧ (applyStatusUpdate status loc det r).destination = r.destination
    ∧ (applyStatusUpdate status loc det r).cargo_value = r.cargo_value
    ∧ (applyStatusUpdate status loc det r).priority = r.priority
    ∧ (applyStatusUpdate status loc det r).container_type = r.container_type := by
  unfold applyStatusUpdate
  cases det <;> by_cases hl : pyTruthy loc <;> simp [hl]

theorem applyStatusUpdate_status_eq (status : String) (loc det : Option String)
    (r : ShipmentRecord) :
    (applyStatusUpdate status loc det r).status = status :=
  (applyStatusUpdate_frame status loc det r).1

theorem fields_lookup_resolutionChoice (r : ShipmentRecord) :
    List.lookup "resolutionChoice" r.fields = none := rfl

theorem dictInsert_idem (k : String) (v : ShipmentRecord) (s : Store) :
    dictInsert k v (dictInsert k v s) = dictInsert k v s := by
  have h1 : (List.lookup k (dictInsert k v s)).isSome := by
    rw [lookup_dictInsert_self]
    rfl
  by_cases h : (List.lookup k s).isSome
  · have hs : dictInsert k v s = s.map (fun p => if p.1 = k then (k, v) else p) := by
      simp [dictInsert, h]
    rw [hs] at h1 ⊢
    simp only [dictInsert, h1, if_pos]
    exact map_replace_idem k v s
  · have hn : List.lookup k s = none := Option.not_isSome_iff_eq_none.mp h
    have hs : dictInsert k v s = s ++ [(k, v)] := by
      simp [dictInsert, h]
    rw [hs] at h1 ⊢
    simp only [dictInsert, h1, if_pos]
    rw [List.map_append, map_replace_eq_self_of_lookup_none k v s hn]
    simp

/-! ## Claims -/

open ShipmentLifecycleWorkflow

/-- Claim C1: for every shipment payload and every recognized resolution
choice among expedite, bribe_official, reroute and wait, the run
terminates with result status "Delivered" and resolution equal to the
sent choice, and the "Cleared Customs" upsert records a location whose
parenthesized label is exactly the one the section-4.5 table assigns to
that choice. -/
theorem recognized_choice_delivered_with_table_label
    (p : ShipmentRecord) (choice : String)
    (h : choice = "expedite" ∨ choice = "bribe_official" ∨
         choice = "reroute" ∨ choice = "wait") :
    runResult p choice
        = { shipment_id := p.shipment_id, status := "Delivered",
            resolution := some choice }
    ∧ ∃ lab pre post,
        specResolutionLabel choice = some lab
        ∧ clearedCustomsLocation (runTrace p choice)
            = some (some (pre ++ "(" ++ lab ++ ")" ++ post)) := by
  refine ⟨rfl, ?_⟩
  rcases h with h | h | h | h <;> subst h
  · exact ⟨"Express Service", "Customs cleared ", " - " ++ p.destination, rfl, rfl⟩
  · exact ⟨"Expedited Processing", "Customs cleared ", " - " ++ p.destination, rfl, rfl⟩
  · exact ⟨"Alternative Port", "Rerouted and cleared ", " - " ++ p.destination, rfl, rfl⟩
  · exact ⟨"Standard Processing", "Customs cleared ", " - " ++ p.destination, rfl, rfl⟩

/-- Claim C1, witness: the statement instantiated at the sample payload
with the choice "expedite". -/
theorem recognized_choice_delivered_with_table_label_witness :
    runResult samplePayload "expedite"
        = { shipment_id := samplePayload.shipment_id, status := "Delivered",
            resolution := some "expedite" }
    ∧ ∃ lab pre post,
        specResolutionLabel "expedite" = some lab
        ∧ clearedCustomsLocation (runTrace samplePayload "expedite")
            = some (some (pre ++ "(" ++ lab ++ ")" ++ post)) :=
  recognized_choice_delivered_with_table_label samplePayload "expedite" (Or.inl rfl)

/-- Claim C2, counterexample: for the unrecognized choice "sabotage" the
location recorded by the "Cleared Customs" upsert is not the
"Standard Processing" one that the wait branch records: the fallback
branch writes the location without any parenthesized label. -/
theorem unknown_choice_label_differs_from_wait :
    clearedCustomsLocation (runTrace samplePayload "sabotage")
        ≠ clearedCustomsLocation (runTrace samplePayload "wait")
    ∧ clearedCustomsLocation (runTrace samplePayload "wait")
        = some (some ("Customs cleared (Standard Processing) - Rotterdam"))
    ∧ clearedCustomsLocation (runTrace samplePayload "sabotage")
        = some (some ("Customs cleared - Rotterdam")) := by
  refine ⟨?_, rfl, rfl⟩
  decide

/-- Claim C2 as amended: an unrecognized choice still reaches Delivered
and uses the same 6-second delay as the wait branch, with only a warning
logged; but its "Cleared Customs" location is "Customs cleared - "
followed by the destination, without the "(Standard Processing)" label
that the wait branch records. -/
theorem unknown_choice_falls_back_with_plain_label
    (p : ShipmentRecord) (choice : String)
    (h : choice ≠ "expedite" ∧ choice ≠ "bribe_official" ∧
         choice ≠ "reroute" ∧ choice ≠ "wait") :
    (resolutionEvents p.shipment_id p.destination choice).head?
        = (resolutionEvents p.shipment_id p.destination "wait").head?
    ∧ resolutionEvents p.shipment_id p.destination choice
        = [ WorkflowEvent.sleep 6,
            WorkflowEvent.activity (ActivityCall.updateStatus p.shipment_id
              "Cleared Customs" (some ("Customs cleared - " ++ p.destination)) none) ]
    ∧ runResult p choice
        = { shipment_id := p.shipment_id, status := "Delivered",
            resolution := some choice }
    ∧ resolutionLogLevel choice = "warning" := by
  obtain ⟨h1, h2, h3, h4⟩ := h
  refine ⟨?_, ?_, rfl, ?_⟩
  · simp [resolutionEvents, h1, h2, h3, h4]
  · simp [resolutionEvents, h1, h2, h3, h4]
  · simp [resolutionLogLevel, h1, h2, h3, h4]

/-- Claim C2 as amended, witness: the statement instantiated at the
sample payload with the choice "sabotage". -/
theorem unknown_choice_falls_back_with_plain_label_witness :
    (resolutionEvents samplePayload.shipment_id samplePayload.destination "sabotage").head?
        = (resolutionEvents samplePayload.shipment_id samplePayload.destination "wait").head?
    ∧ resolutionEvents samplePayload.shipment_id samplePayload.destination "sabotage"
        = [ WorkflowEvent.sleep 6,
            WorkflowEvent.activity (ActivityCall.updateStatus samplePayload.shipment_id
              "Cleared Customs"
              (some ("Customs cleared - " ++ samplePayload.destination)) none) ]
    ∧ runResult samplePayload "sabotage"
        = { shipment_id := samplePayload.shipment_id, status := "Delivered",
            resolution := some "sabotage" }
    ∧ resolutionLogLevel "sabotage" = "warning" :=
  unknown_choice_falls_back_with_plain_label samplePayload "sabotage"
    ⟨by decide, by decide, by decide, by decide⟩

/-- Claim C3, counterexample: the signal-forwarding endpoint rejects the
unrecognized choice "sabotage" with a 400 error instead of delivering it
to the workflow. -/
theorem resolve_endpoint_rejects_unknown_choice :
    resolve_shipment_issue "SHP-1" "sabotage"
      = ApiResult.httpError 400
          "Invalid choice. Must be one of: expedite, wait, bribe_official, reroute" := rfl

/-- Claim C3 as amended: the signal-forwarding endpoint validates the
choice before sending any signal: a choice inside the valid list is
forwarded unchanged to the workflow, and any other choice is rejected
with a 400 error naming the valid choices; the workflow-side
treat-as-wait fallback is reachable only by a signal delivered outside
this endpoint. -/
theorem resolve_endpoint_choice_validation (shipment_id choice : String) :
    (choice ∈ valid_choices →
      resolve_shipment_issue shipment_id choice
        = ApiResult.ok { message := "Resolution signal sent to workflow",
                         shipment_id := shipment_id, choice := choice })
    ∧ (choice ∉ valid_choices →
      resolve_shipment_issue shipment_id choice
        = ApiResult.httpError 400
            "Invalid choice. Must be one of: expedite, wait, bribe_official, reroute") := by
  constructor
  · intro h
    unfold resolve_shipment_issue
    rw [if_neg (not_not_intro h)]
  · intro h
    unfold resolve_shipment_issue
    rw [if_pos h]
    rfl

/-- Claim C3 as amended, witness: instantiated at the valid choice
"expedite" and the invalid choice "sabotage". -/
theorem resolve_endpoint_choice_validation_witness :
    resolve_shipment_issue "SHP-1" "expedite"
        = ApiResult.ok { message := "Resolution signal sent to workflow",
                         shipment_id := "SHP-1", choice := "expedite" }
    ∧ resolve_shipment_issue "SHP-2" "sabotage"
        = ApiResult.httpError 400
            "Invalid choice. Must be one of: expedite, wait, bribe_official, reroute" :=
  ⟨(resolve_endpoint_choice_validation "SHP-1" "expedite").1 (by decide),
   (resolve_endpoint_choice_validation "SHP-2" "sabotage").2 (by decide)⟩

/-- Claim C4, counterexample: after a full run resolved with "expedite",
querying the shipment returns a record whose status field is "Delivered"
but which has no resolutionChoice field at all (its field lookup yields
nothing), so the queried record's resolutionChoice does not equal
"expedite". -/
theorem queried_record_lacks_resolutionChoice_field :
    queriedField "SHP-1" "resolutionChoice"
        (runEvents (runTrace samplePayload "expedite") []) = some none
    ∧ queriedField "SHP-1" "status"
        (runEvents (runTrace samplePayload "expedite") [])
        = some (some (PyValue.str "Delivered")) := ⟨rfl, rfl⟩

/-- Claim C4 as amended: after the workflow runs to completion with the
signal choice "expedite", querying the shipment returns a record whose
status field is "Delivered"; the resolution "expedite" appears in the
workflow's return value, not as a field of the stored record, which has
no resolutionChoice field. -/
theorem expedite_run_query_delivered (p : ShipmentRecord) (s : Store) :
    ∃ r, get_shipment p.shipment_id (runEvents (runTrace p "expedite") s)
          = ApiResult.ok r
      ∧ r.status = "Delivered"
      ∧ List.lookup "resolutionChoice" r.fields = none
      ∧ (runResult p "expedite").resolution = some "expedite" := by
  have h1 : List.lookup p.shipment_id (runEvents (runTrace p "expedite") s)
      = some (applyStatusUpdate "Delivered"
          (some ("Delivered to " ++ p.destination)) none
          (applyStatusUpdate "Cleared Customs"
            (some ("Customs cleared (Express Service) - " ++ p.destination)) none
          (applyStatusUpdate "Issue Detected"
            (some ("Customs checkpoint - " ++ p.destination))
            (some "Documentation discrepancy found - requires manual review")
          (applyStatusUpdate "At Customs"
            (some ("Customs checkpoint - " ++ p.destination)) none
          (applyStatusUpdate "In Transit"
            (some ("En route to " ++ p.destination)) none p))))) := by
    show List.lookup p.shipment_id
        (update_shipment_status p.shipment_id "Delivered"
          (some ("Delivered to " ++ p.destination)) none
          (update_shipment_status p.shipment_id "Cleared Customs"
            (some ("Customs cleared (Express Service) - " ++ p.destination)) none
            (update_shipment_status p.shipment_id "Issue Detected"
              (some ("Customs checkpoint - " ++ p.destination))
              (some "Documentation discrepancy found - requires manual review")
              (update_shipment_status p.shipment_id "At Customs"
                (some ("Customs checkpoint - " ++ p.destination)) none
                (update_shipment_status p.shipment_id "In Transit"
                  (some ("En route to " ++ p.destination)) none
                  (dictInsert p.shipment_id p s)).1).1).1).1).1 = _
    rw [lookup_update_self, lookup_update_self, lookup_update_self,
        lookup_update_self, lookup_update_self, lookup_dictInsert_self]
    rfl
  refine ⟨applyStatusUpdate "Delivered"
      (some ("Delivered to " ++ p.destination)) none
      (applyStatusUpdate "Cleared Customs"
        (some ("Customs cleared (Express Service) - " ++ p.destination)) none
      (applyStatusUpdate "Issue Detected"
        (some ("Customs checkpoint - " ++ p.destination))
        (some "Documentation discrepancy found - requires manual review")
      (applyStatusUpdate "At Customs"
        (some ("Customs checkpoint - " ++ p.destination)) none
      (applyStatusUpdate "In Transit"
        (some ("En route to " ++ p.destination)) none p)))), ?_, ?_, rfl, rfl⟩
  · unfold get_shipment
    rw [h1]
  · rw [applyStatusUpdate_status_eq]

/-- Claim C5: for every complete run, whatever the resolution choice,
the statuses persisted to the store are exactly, in order: "Pending" (at
record creation, as the create endpoint sets it), "In Transit",
"At Customs", "Issue Detected", "Cleared Customs", "Delivered". -/
theorem persisted_status_sequence (p : ShipmentRecord) (choice : String)
    (h : p.status = "Pending") :
    persistedStatuses (runTrace p choice)
      = ["Pending", "In Transit", "At Customs", "Issue Detected",
         "Cleared Customs", "Delivered"] := by
  unfold runTrace resolutionEvents
  split_ifs <;> simp [persistedStatuses, h]

/-- Claim C5, witness: the statement instantiated at the sample payload
with an unrecognized choice. -/
theorem persisted_status_sequence_witness :
    persistedStatuses (runTrace samplePayload "sabotage")
      = ["Pending", "In Transit", "At Customs", "Issue Detected",
         "Cleared Customs", "Delivered"] :=
  persisted_status_sequence samplePayload "sabotage" rfl

/-- Claim C6, counterexample: delivering a second resolution signal with
a different choice does not leave the originally recorded choice in
place: after "expedite" then "wait", the recorded choice is no longer
"expedite". -/
theorem second_signal_overwrites_choice :
    (handle_resolution (handle_resolution ⟨none⟩ "expedite") "wait").resolution_choice
      ≠ some "expedite" := by decide

/-- Claim C6 as amended: the signal handler records the delivered choice
unconditionally, so each delivered signal overwrites the previous one:
after two signals the recorded resolutionChoice is the second signal's
choice. -/
theorem handle_resolution_records_latest_choice
    (st : WorkflowState) (c₁ c₂ : String) :
    (handle_resolution st c₁).resolution_choice = some c₁
    ∧ (handle_resolution (handle_resolution st c₁) c₂).resolution_choice = some c₂ :=
  ⟨rfl, rfl⟩

/-- Claim C7: the shipment-store upserts are idempotent: for every store
state and argument tuple, running the status-update upsert twice with
identical arguments leaves the store and the returned value exactly as
one run does, and likewise for the record-creation upsert. -/
theorem upserts_idempotent (shipment_id status : String)
    (loc det : Option String) (d : ShipmentRecord) (s : Store) :
    update_shipment_status shipment_id status loc det
        (update_shipment_status shipment_id status loc det s).1
      = update_shipment_status shipment_id status loc det s
    ∧ create_shipment_record d (create_shipment_record d s).1
      = create_shipment_record d s := by
  constructor
  · rw [Prod.ext_iff]
    exact ⟨update_store_idem shipment_id status loc det s, rfl⟩
  · rw [Prod.ext_iff]
    exact ⟨dictInsert_idem d.shipment_id d s, rfl⟩

/-- Claim C8, counterexample: the status-update upsert addressed to a
shipmentId absent from the store does not surface the unknown id as a
failure: it leaves the store unchanged and returns the same plain
success value it returns when the id is present. -/
theorem unknown_id_upsert_silently_succeeds :
    update_shipment_status "SHP-404" "Delivered" none none ([] : Store)
        = (([] : Store), { shipment_id := "SHP-404", status := "Delivered" })
    ∧ (update_shipment_status "SHP-404" "Delivered" none none ([] : Store)).2
        = (update_shipment_status "SHP-404" "Delivered" none none
            [("SHP-404", samplePayload)]).2 := ⟨rfl, rfl⟩

/-- Claim C8 as amended: querying an unknown shipmentId surfaces a 404
error naming the id, but the status-update upsert on an unknown
shipmentId does not report it: it silently leaves the store unchanged
and returns its ordinary success value. -/
theorem unknown_id_query_404_upsert_silent (s : Store)
    (shipment_id status : String) (loc det : Option String)
    (h : List.lookup shipment_id s = none) :
    get_shipment shipment_id s
        = ApiResult.httpError 404 ("Shipment " ++ shipment_id ++ " not found")
    ∧ (update_shipment_status shipment_id status loc det s).1 = s
    ∧ (update_shipment_status shipment_id status loc det s).2
        = { shipment_id := shipment_id, status := status } := by
  refine ⟨?_, update_map_eq_self_of_lookup_none shipment_id status loc det s h, rfl⟩
  unfold get_shipment
  rw [h]

/-- Claim C8 as amended, witness: the statement instantiated at the
empty store and the id "SHP-404". -/
theorem unknown_id_query_404_upsert_silent_witness :
    get_shipment "SHP-404" ([] : Store)
        = ApiResult.httpError 404 ("Shipment " ++ "SHP-404" ++ " not found")
    ∧ (update_shipment_status "SHP-404" "In Transit" none none ([] : Store)).1 = []
    ∧ (update_shipment_status "SHP-404" "In Transit" none none ([] : Store)).2
        = { shipment_id := "SHP-404", status := "In Transit" } :=
  unknown_id_query_404_upsert_silent [] "SHP-404" "In Transit" none none rfl

/-- Claim C9: the workflow's decision logic is deterministic: two runs
with the same payload and the same resolution choice delivered at the
suspension point produce the identical sequence of sleeps and activity
invocations and the identical final result; the payload and the signal
are the only inputs of the decision function. -/
theorem workflow_deterministic (p₁ p₂ : ShipmentRecord) (c₁ c₂ : String)
    (hp : p₁ = p₂) (hc : c₁ = c₂) :
    runTrace p₁ c₁ = runTrace p₂ c₂ ∧ runResult p₁ c₁ = runResult p₂ c₂ := by
  subst hp
  subst hc
  exact ⟨rfl, rfl⟩

/-- Claim C9, witness: the statement instantiated at the sample payload
with the choice "reroute". -/
theorem workflow_deterministic_witness :
    runTrace samplePayload "reroute" = runTrace samplePayload "reroute"
    ∧ runResult samplePayload "reroute" = runResult samplePayload "reroute" :=
  workflow_deterministic samplePayload samplePayload "reroute" "reroute" rfl rfl

/-- Claim C10: for a store containing the shipmentId, the status-update
upsert with a falsy current_location leaves current_location unchanged
and with issue_details omitted leaves issue_details unchanged; every
field other than status, current_location and issue_details of that
record is unchanged in all cases, and every other record in the store
is untouched. -/
theorem update_status_frame_conditions (s : Store) (shipment_id status : String)
    (loc det : Option String) (r : ShipmentRecord)
    (h : List.lookup shipment_id s = some r) :
    ∃ r', List.lookup shipment_id
            (update_shipment_status shipment_id status loc det s).1 = some r'
      ∧ r'.status = status
      ∧ (pyTruthy loc = false → r'.current_location = r.current_location)
      ∧ (det = none → r'.issue_details = r.issue_details)
      ∧ r'.shipment_id = r.shipment_id
      ∧ r'.project_name = r.project_name
      ∧ r'.supplier_name = r.supplier_name
      ∧ r'.origin = r.origin
      ∧ r'.destination = r.destination
      ∧ r'.cargo_value = r.cargo_value
      ∧ r'.priority = r.priority
      ∧ r'.container_type = r.container_type
      ∧ ∀ id', id' ≠ shipment_id →
          List.lookup id' (update_shipment_status shipment_id status loc det s).1
            = List.lookup id' s := by
  refine ⟨applyStatusUpdate status loc det r, ?_, ?_⟩
  · rw [lookup_update_self, h]
    rfl
  · obtain ⟨h1, h2, h3, h4, h5, h6, h7, h8, h9, h10, h11⟩ :=
      applyStatusUpdate_frame status loc det r
    exact ⟨h1, h2, h3, h4, h5, h6, h7, h8, h9, h10, h11,
      fun id' hid => lookup_update_other shipment_id status loc det s id' hid⟩

/-- Claim C10, witness: the statement instantiated at a one-record store
holding the sample payload, with an empty current_location and omitted
issue_details. -/
theorem update_status_frame_conditions_witness :
    ∃ r', List.lookup "SHP-1"
            (update_shipment_status "SHP-1" "At Customs" (some "") none
              [("SHP-1", samplePayload)]).1 = some r'
      ∧ r'.status = "At Customs"
      ∧ (pyTruthy (some "") = false → r'.current_location = samplePayload.current_location)
      ∧ ((none : Option String) = none → r'.issue_details = samplePayload.issue_details)
      ∧ r'.shipment_id = samplePayload.shipment_id
      ∧ r'.project_name = samplePayload.project_name
      ∧ r'.supplier_name = samplePayload.supplier_name
      ∧ r'.origin = samplePayload.origin
      ∧ r'.destination = samplePayload.destination
      ∧ r'.cargo_value = samplePayload.cargo_value
      ∧ r'.priority = samplePayload.priority
      ∧ r'.container_type = samplePayload.container_type
      ∧ ∀ id', id' ≠ "SHP-1" →
          List.lookup id'
            (update_shipment_status "SHP-1" "At Customs" (some "") none
              [("SHP-1", samplePayload)]).1
            = List.lookup id' [("SHP-1", samplePayload)] :=
  update_status_frame_conditions [("SHP-1", samplePayload)] "SHP-1" "At Customs"
    (some "") none samplePayload rfl

end Shipment
